import Mathlib

/-!
Verification development for the CanEditor seam / clipping / material /
lighting core (src/src/app/page.tsx). The numeric code of the source is
embedded over the exact rationals; every definition mirrors the formula
text of the corresponding source expression.
-/

namespace CanEditor

/-- The two can size presets (type CanSize in the source). -/
inductive CanSize
  | ml355
  | ml475

/-- A rational 3-vector, standing for the three.js Vector3 and for the
scale and position triples of the source. -/
structure Vec3 where
  x : ℚ
  y : ℚ
  z : ℚ

/-- Per-size preset record (interface CanSizeSpec). -/
structure CanSizeSpec where
  scale : Vec3
  labelSizeText : String

/-- The declared per-size presets (const canSizeSpecs). -/
def canSizeSpecs : CanSize → CanSizeSpec
  | CanSize.ml355 => { scale := Vec3.mk 2.5 2.5 2.5, labelSizeText := "Label 207x110 mm" }
  | CanSize.ml475 => { scale := Vec3.mk 2.6 3.0 2.6, labelSizeText := "Label 207x140 mm" }

/-- The uniform group scale constant of EditableSodaCan
(const uniformScale = 2.0). -/
def uniformScale : ℚ := 2.0

/-- The body-only vertical stretch for a size
(const sy = canSize === "475ml" ? 3.0 / 2.5 : 1.0). -/
def stretchFor : CanSize → ℚ
  | CanSize.ml475 => 3.0 / 2.5
  | CanSize.ml355 => 1.0

/-- The label band's local vertical extent, read from the label geometry
bounding box (bodyMinY / bodyMaxY in the source). -/
structure BoundingExtent where
  min : ℚ
  max : ℚ

/-- const bodyHeight = bodyMaxY - bodyMinY. -/
def bodyHeight (e : BoundingExtent) : ℚ := e.max - e.min

/-- const seamTopLocal = sy > 1 ? bodyHeight * 0.003 : 0. -/
def seamTopLocal (e : BoundingExtent) (sy : ℚ) : ℚ :=
  if 1 < sy then bodyHeight e * 0.003 else 0

/-- const seamBottomLocal = sy > 1 ? bodyHeight * 0.007 : 0. -/
def seamBottomLocal (e : BoundingExtent) (sy : ℚ) : ℚ :=
  if 1 < sy then bodyHeight e * 0.007 else 0

/-- const offsetCoreLocal = (bodyHeight / 2) * (sy - 1). -/
def offsetCoreLocal (e : BoundingExtent) (sy : ℚ) : ℚ :=
  (bodyHeight e / 2) * (sy - 1)

/-- const topOffsetLocal = offsetCoreLocal - seamTopLocal. -/
def topOffsetLocal (e : BoundingExtent) (sy : ℚ) : ℚ :=
  offsetCoreLocal e sy - seamTopLocal e sy

/-- const bottomOffsetLocal = offsetCoreLocal - seamBottomLocal. -/
def bottomOffsetLocal (e : BoundingExtent) (sy : ℚ) : ℚ :=
  offsetCoreLocal e sy - seamBottomLocal e sy

/-- const newMinWorld = bodyMinY * sy * uniformScale. -/
def newMinWorld (e : BoundingExtent) (sy : ℚ) : ℚ := e.min * sy * uniformScale

/-- const newMaxWorld = bodyMaxY * sy * uniformScale. -/
def newMaxWorld (e : BoundingExtent) (sy : ℚ) : ℚ := e.max * sy * uniformScale

/-- const seamTopWorld = seamTopLocal * sy * uniformScale. -/
def seamTopWorld (e : BoundingExtent) (sy : ℚ) : ℚ :=
  seamTopLocal e sy * sy * uniformScale

/-- const seamBottomWorld = seamBottomLocal * sy * uniformScale. -/
def seamBottomWorld (e : BoundingExtent) (sy : ℚ) : ℚ :=
  seamBottomLocal e sy * sy * uniformScale

/-- A three.js clipping plane: the pair of a normal and the plane constant.
three.js keeps a point p when normal dot p + constant is nonnegative. -/
structure Plane where
  normal : Vec3
  constant : ℚ

/-- The half-space a three.js clipping plane keeps. -/
def Plane.keeps (pl : Plane) (p : Vec3) : Prop :=
  0 ≤ pl.normal.x * p.x + pl.normal.y * p.y + pl.normal.z * p.z + pl.constant

instance (pl : Plane) (p : Vec3) : Decidable (pl.keeps p) := by
  unfold Plane.keeps; infer_instance

/-- const planeKeepYGreaterEq = (y) => new THREE.Plane(new THREE.Vector3(0, 1, 0), -y). -/
def planeKeepYGreaterEq (y : ℚ) : Plane := Plane.mk (Vec3.mk 0 1 0) (-y)

/-- const planeKeepYLessEq = (y) => new THREE.Plane(new THREE.Vector3(0, -1, 0), y). -/
def planeKeepYLessEq (y : ℚ) : Plane := Plane.mk (Vec3.mk 0 (-1) 0) y

/-- const topPlane = planeKeepYGreaterEq(newMaxWorld - seamTopWorld). -/
def topPlane (e : BoundingExtent) (sy : ℚ) : Plane :=
  planeKeepYGreaterEq (newMaxWorld e sy - seamTopWorld e sy)

/-- const bottomPlane = planeKeepYLessEq(newMinWorld + seamBottomWorld). -/
def bottomPlane (e : BoundingExtent) (sy : ℚ) : Plane :=
  planeKeepYLessEq (newMinWorld e sy + seamBottomWorld e sy)

/-- const bodyPlanes = [planeKeepYGreaterEq(newMinWorld - seamBottomWorld),
planeKeepYLessEq(newMaxWorld + seamTopWorld)]. -/
def bodyPlanes (e : BoundingExtent) (sy : ℚ) : List Plane :=
  [planeKeepYGreaterEq (newMinWorld e sy - seamBottomWorld e sy),
   planeKeepYLessEq (newMaxWorld e sy + seamTopWorld e sy)]

/-- An rgb color with rational channels, standing for THREE.Color. -/
structure Rgb where
  r : ℚ
  g : ℚ
  b : ℚ

/-- The color literal "#bbbbbb" used for the body metal config. -/
def rgbGray : Rgb := Rgb.mk (187 / 255) (187 / 255) (187 / 255)

/-- The color literal "#ffffff" used as the fixed emissive color. -/
def rgbWhite : Rgb := Rgb.mk 1 1 1

/-- const colorWithBrightness = (hex, b) => new THREE.Color(hex).multiplyScalar(b). -/
def colorWithBrightness (c : Rgb) (brightness : ℚ) : Rgb :=
  Rgb.mk (c.r * brightness) (c.g * brightness) (c.b * brightness)

/-- interface MetalPartSettings. -/
structure MetalPartSettings where
  color : Rgb
  brightness : ℚ
  roughness : ℚ
  emissiveIntensity : ℚ
  castShadow : Bool
  receiveShadow : Bool
  envMapIntensity : ℚ

/-- interface MetalSettings. -/
structure MetalSettings where
  top : MetalPartSettings
  bottom : MetalPartSettings

/-- The three metal parts of the can handled by makeMetalMat. -/
inductive MetalPart
  | top
  | bottom
  | body

/-- The cfg record makeMetalMat selects for a part: the user settings for
the caps, and for the body the hard-coded gray color, the top/bottom
averages, and the fixed castShadow false / receiveShadow true pair. -/
def metalPartCfg (ms : MetalSettings) : MetalPart → MetalPartSettings
  | MetalPart.top => ms.top
  | MetalPart.bottom => ms.bottom
  | MetalPart.body =>
      { color := rgbGray
        brightness := (ms.top.brightness + ms.bottom.brightness) / 2
        roughness := (ms.top.roughness + ms.bottom.roughness) / 2
        emissiveIntensity := (ms.top.emissiveIntensity + ms.bottom.emissiveIntensity) / 2
        castShadow := false
        receiveShadow := true
        envMapIntensity := (ms.top.envMapIntensity + ms.bottom.envMapIntensity) / 2 }

/-- The parameter record of the MeshStandardMaterial built by makeMetalMat. -/
structure MeshStandardMaterial where
  roughness : ℚ
  metalness : ℚ
  color : Rgb
  emissive : Rgb
  emissiveIntensity : ℚ
  envMapIntensity : ℚ
  clippingPlanes : List Plane
  clipShadows : Bool

/-- const makeMetalMat = (planes, part) => new THREE.MeshStandardMaterial({...}). -/
def makeMetalMat (ms : MetalSettings) (planes : List Plane) (part : MetalPart) :
    MeshStandardMaterial :=
  let cfg := metalPartCfg ms part
  { roughness := cfg.roughness
    metalness := 1
    color := colorWithBrightness cfg.color cfg.brightness
    emissive := rgbWhite
    emissiveIntensity := cfg.emissiveIntensity
    envMapIntensity := cfg.envMapIntensity
    clippingPlanes := planes
    clipShadows := true }

/-- The render-relevant props of one placed metal mesh segment of the
group returned by EditableSodaCan. -/
structure MeshSegment where
  castShadow : Bool
  receiveShadow : Bool
  positionY : ℚ
  scale : Vec3
  material : MeshStandardMaterial

/-- The top cap mesh: shadow flags from the top settings, raised by
topOffsetLocal, unscaled, with the top material and plane. -/
def topCapMesh (ms : MetalSettings) (e : BoundingExtent) (sy : ℚ) : MeshSegment :=
  { castShadow := ms.top.castShadow
    receiveShadow := ms.top.receiveShadow
    positionY := topOffsetLocal e sy
    scale := Vec3.mk 1 1 1
    material := makeMetalMat ms [topPlane e sy] MetalPart.top }

/-- The body mesh: the source writes the bare castShadow and receiveShadow
attributes (both true), scale [1, sy, 1], and the body material. -/
def bodyMesh (ms : MetalSettings) (e : BoundingExtent) (sy : ℚ) : MeshSegment :=
  { castShadow := true
    receiveShadow := true
    positionY := 0
    scale := Vec3.mk 1 sy 1
    material := makeMetalMat ms (bodyPlanes e sy) MetalPart.body }

/-- The bottom cap mesh: shadow flags from the bottom settings, lowered by
bottomOffsetLocal, unscaled, with the bottom material and plane. -/
def bottomCapMesh (ms : MetalSettings) (e : BoundingExtent) (sy : ℚ) : MeshSegment :=
  { castShadow := ms.bottom.castShadow
    receiveShadow := ms.bottom.receiveShadow
    positionY := -(bottomOffsetLocal e sy)
    scale := Vec3.mk 1 1 1
    material := makeMetalMat ms [bottomPlane e sy] MetalPart.bottom }

/-- The render-relevant props of the label and tab meshes, whose materials
are inline and not built by makeMetalMat. -/
structure SimpleMeshSegment where
  castShadow : Bool
  receiveShadow : Bool
  positionY : ℚ
  scale : Vec3

/-- The label mesh: castShadow receiveShadow, scale [1, sy, 1]. -/
def labelMesh (sy : ℚ) : SimpleMeshSegment :=
  SimpleMeshSegment.mk true true 0 (Vec3.mk 1 sy 1)

/-- The tab mesh: castShadow receiveShadow, raised by topOffsetLocal,
unscaled. -/
def tabMesh (e : BoundingExtent) (sy : ℚ) : SimpleMeshSegment :=
  SimpleMeshSegment.mk true true (topOffsetLocal e sy) (Vec3.mk 1 1 1)

/-- The scale attribute of the group element:
scale = [uniformScale, uniformScale, uniformScale]. -/
def groupScale : Vec3 := Vec3.mk uniformScale uniformScale uniformScale

/-- interface BarSettings (the color stays the hex string of the source). -/
structure BarSettings where
  enabled : Bool
  color : String
  intensity : ℚ
  width : ℚ
  height : ℚ
  distance : ℚ
  rotation : ℚ
  y : ℚ

/-- The scene element RotatingEnvironment returns: either the Environment
holding the rotated Lightformer, or the rotated studio-preset Environment. -/
inductive EnvScene
  | lightformerEnv (rotationY : ℚ) (color : String) (intensity : ℚ)
      (position : Vec3) (scale : Vec3)
  | studioEnv (rotationY : ℚ)

/-- function RotatingEnvironment: bar.enabled selects the Lightformer
branch, otherwise the studio-preset branch. -/
def rotatingEnvironment (barRotation otherRotation : ℚ) (bar : BarSettings) : EnvScene :=
  if bar.enabled then
    EnvScene.lightformerEnv barRotation bar.color bar.intensity
      (Vec3.mk 0 bar.y bar.distance) (Vec3.mk bar.width bar.height 1)
  else
    EnvScene.studioEnv otherRotation

/-- Whether the returned scene element is the Lightformer environment. -/
def EnvScene.isLightformer : EnvScene → Bool
  | EnvScene.lightformerEnv _ _ _ _ _ => true
  | EnvScene.studioEnv _ => false

/-- Whether the returned scene element is the studio backdrop. -/
def EnvScene.isStudio : EnvScene → Bool
  | EnvScene.lightformerEnv _ _ _ _ _ => false
  | EnvScene.studioEnv _ => true

/-- interface LightingSettings. -/
structure LightingSettings where
  exposure : ℚ
  envIntensity : ℚ
  ambientIntensity : ℚ
  fillLightIntensity : ℚ
  fillLightPosition : Vec3
  rimLightIntensity : ℚ
  rimLightPosition : Vec3
  directionalIntensity : ℚ
  directionalPosition : Vec3
  otherRotation : ℚ
  otherStrength : ℚ

/-- The exact rational value of the IEEE-754 double Math.PI of the
source's JavaScript runtime. -/
def mathPi : ℚ := 884279719003555 / 281474976710656

/-- The initial useState value of lightingSettings. -/
def initialLightingSettings : LightingSettings :=
  { exposure := 1.78
    envIntensity := 1.54
    ambientIntensity := 2.8
    fillLightIntensity := 5.0
    fillLightPosition := Vec3.mk 5 0 5
    rimLightIntensity := 5.8
    rimLightPosition := Vec3.mk (-5) 0 5
    directionalIntensity := 2.6
    directionalPosition := Vec3.mk 10 10 10
    otherRotation := 195 * mathPi / 180
    otherStrength := 1.01 }

/-- The lighting part of resetToDefault:
setLightingSettings((prev) => ({ ...prev, exposure: 1.78, ... })).
The three position fields are not in the update object, so they are
carried over from prev by the spread. -/
def resetLighting (prev : LightingSettings) : LightingSettings :=
  { prev with
    exposure := 1.78
    envIntensity := 1.54
    ambientIntensity := 2.8
    fillLightIntensity := 5.0
    rimLightIntensity := 5.8
    directionalIntensity := 2.6
    otherRotation := 195 * mathPi / 180
    otherStrength := 1.01 }

/-- Modelled from the spec: the unweighted linear blend of two colors that
section 4.4 asserts for the body color. Used only to compare the claimed
averaging rule with the source's body config. -/
def specColorBlend (a b : Rgb) : Rgb :=
  Rgb.mk ((a.r + b.r) / 2) ((a.g + b.g) / 2) ((a.b + b.b) / 2)

/-- The extent of the scenario in section 8: min -1.0, max 1.0. -/
def scenarioExtent : BoundingExtent := BoundingExtent.mk (-1) 1

/-- A concrete all-black cap setting used to exhibit that the body color
is not a blend of the cap colors. -/
def blackPart : MetalPartSettings :=
  { color := Rgb.mk 0 0 0
    brightness := 1
    roughness := 0.5
    emissiveIntensity := 0
    castShadow := false
    receiveShadow := true
    envMapIntensity := 1 }

/-- At a stretch above one, the top seam epsilon is the 0.003 fraction of
the body height. -/
theorem seamTopLocal_of_stretched (e : BoundingExtent) (sy : ℚ) (h : 1 < sy) :
    seamTopLocal e sy = bodyHeight e * 0.003 := by
  simp [seamTopLocal, h]

/-- At a stretch above one, the bottom seam epsilon is the 0.007 fraction
of the body height. -/
theorem seamBottomLocal_of_stretched (e : BoundingExtent) (sy : ℚ) (h : 1 < sy) :
    seamBottomLocal e sy = bodyHeight e * 0.007 := by
  simp [seamBottomLocal, h]

/-- Claim C1: for the stretched profile (stretch 1.2) and any extent with
min below max, topOffsetLocal and bottomOffsetLocal are strictly positive
and strictly below offsetCore = (bodyHeightLocal / 2) * (stretch - 1). -/
theorem stretched_offsets_positive_below_core (e : BoundingExtent)
    (h : e.min < e.max) :
    (0 < topOffsetLocal e 1.2 ∧ topOffsetLocal e 1.2 < offsetCoreLocal e 1.2) ∧
    (0 < bottomOffsetLocal e 1.2 ∧ bottomOffsetLocal e 1.2 < offsetCoreLocal e 1.2) := by
  have hh : 0 < e.max - e.min := sub_pos.mpr h
  have h12 : (1 : ℚ) < 1.2 := by norm_num
  have ht := seamTopLocal_of_stretched e 1.2 h12
  have hb := seamBottomLocal_of_stretched e 1.2 h12
  simp only [topOffsetLocal, bottomOffsetLocal, offsetCoreLocal, ht, hb, bodyHeight]
  refine ⟨⟨by nlinarith, by nlinarith⟩, ⟨by nlinarith, by nlinarith⟩⟩

/-- Witness for claim C1 at the extent with min -1 and max 1. -/
theorem stretched_offsets_positive_below_core_witness :
    (BoundingExtent.mk (-1) 1).min < (BoundingExtent.mk (-1) 1).max ∧
    ((0 < topOffsetLocal (BoundingExtent.mk (-1) 1) 1.2 ∧
        topOffsetLocal (BoundingExtent.mk (-1) 1) 1.2 <
          offsetCoreLocal (BoundingExtent.mk (-1) 1) 1.2) ∧
      (0 < bottomOffsetLocal (BoundingExtent.mk (-1) 1) 1.2 ∧
        bottomOffsetLocal (BoundingExtent.mk (-1) 1) 1.2 <
          offsetCoreLocal (BoundingExtent.mk (-1) 1) 1.2)) :=
  ⟨by norm_num, stretched_offsets_positive_below_core (BoundingExtent.mk (-1) 1) (by norm_num)⟩

/-- Claim C2: for the base profile (stretch 1.0) and every bounding
extent, both seam epsilons (local and world) are forced to zero and both
cap offsets are zero. -/
theorem base_profile_offsets_zero (e : BoundingExtent) :
    seamTopLocal e 1 = 0 ∧ seamBottomLocal e 1 = 0 ∧
    seamTopWorld e 1 = 0 ∧ seamBottomWorld e 1 = 0 ∧
    topOffsetLocal e 1 = 0 ∧ bottomOffsetLocal e 1 = 0 := by
  have h : ¬ ((1 : ℚ) < 1) := lt_irrefl 1
  simp [seamTopLocal, seamBottomLocal, seamTopWorld, seamBottomWorld,
    topOffsetLocal, bottomOffsetLocal, offsetCoreLocal, h]

/-- Counterexample to claim C3 as stated: at extent min -1 max 1 and
stretch 1.2, the code multiplies the extent and the local epsilons by the
stretch as well as by the uniform scale, so newMinWorld is -2.4 rather
than -2.0, and the claimed conjunction fails. -/
theorem scenario_world_values_counterexample :
    ¬ (offsetCoreLocal scenarioExtent 1.2 = 0.2 ∧
       newMinWorld scenarioExtent 1.2 = -2 ∧
       newMaxWorld scenarioExtent 1.2 = 2 ∧
       seamTopWorld scenarioExtent 1.2 = 0.012 ∧
       seamBottomWorld scenarioExtent 1.2 = 0.028) := by
  intro hc
  have h2 := hc.2.1
  norm_num [newMinWorld, scenarioExtent, uniformScale] at h2

/-- Claim C3 amended: at extent min -1 max 1, stretch 1.2 and the uniform
scale 2.0, offsetCore is 0.2 local, the world body boundaries are -2.4 and
2.4, and the world seam epsilons are 0.0144 (top) and 0.0336 (bottom) —
each world value carries the extra stretch factor 1.2. -/
theorem scenario_world_values :
    offsetCoreLocal scenarioExtent 1.2 = 0.2 ∧
    newMinWorld scenarioExtent 1.2 = -2.4 ∧
    newMaxWorld scenarioExtent 1.2 = 2.4 ∧
    seamTopWorld scenarioExtent 1.2 = 0.0144 ∧
    seamBottomWorld scenarioExtent 1.2 = 0.0336 := by
  have h12 : (1 : ℚ) < 1.2 := by norm_num
  norm_num [offsetCoreLocal, newMinWorld, newMaxWorld, seamTopWorld, seamBottomWorld,
    seamTopLocal, seamBottomLocal, bodyHeight, scenarioExtent, uniformScale, h12]

/-- A keep-above plane keeps exactly the points whose y is at or above
the given value. -/
theorem planeKeepYGreaterEq_keeps (v : ℚ) (p : Vec3) :
    (planeKeepYGreaterEq v).keeps p ↔ v ≤ p.y := by
  simp only [Plane.keeps, planeKeepYGreaterEq]
  constructor <;> intro hv <;> nlinarith

/-- A keep-below plane keeps exactly the points whose y is at or below
the given value. -/
theorem planeKeepYLessEq_keeps (v : ℚ) (p : Vec3) :
    (planeKeepYLessEq v).keeps p ↔ p.y ≤ v := by
  simp only [Plane.keeps, planeKeepYLessEq]
  constructor <;> intro hv <;> nlinarith

/-- Claim C4: for every seam geometry, the top cap plane keeps the region
at or above bodyMaxWorld - topSeamWorld, the bottom cap plane keeps the
region at or below bodyMinWorld + bottomSeamWorld, and the body planes
keep the band from bodyMinWorld - bottomSeamWorld up to
bodyMaxWorld + topSeamWorld. -/
theorem clip_planes_keep_regions (e : BoundingExtent) (sy : ℚ) (p : Vec3) :
    ((topPlane e sy).keeps p ↔ newMaxWorld e sy - seamTopWorld e sy ≤ p.y) ∧
    ((bottomPlane e sy).keeps p ↔ p.y ≤ newMinWorld e sy + seamBottomWorld e sy) ∧
    ((∀ pl ∈ bodyPlanes e sy, pl.keeps p) ↔
      (newMinWorld e sy - seamBottomWorld e sy ≤ p.y ∧
        p.y ≤ newMaxWorld e sy + seamTopWorld e sy)) := by
  refine ⟨planeKeepYGreaterEq_keeps _ p, planeKeepYLessEq_keeps _ p, ?_⟩
  simp [bodyPlanes, planeKeepYGreaterEq_keeps, planeKeepYLessEq_keeps]

/-- Counterexample to claim C5 as stated: with both caps set to black, the
claimed linear-blend body color would be black, but makeMetalMat builds
the body color from the hard-coded gray "#bbbbbb", so the body material
color differs from the blend. -/
theorem body_color_not_blend_counterexample :
    ¬ ((makeMetalMat (MetalSettings.mk blackPart blackPart) [] MetalPart.body).color =
        colorWithBrightness
          (specColorBlend blackPart.color blackPart.color)
          ((blackPart.brightness + blackPart.brightness) / 2)) := by
  intro hc
  have hr := congrArg Rgb.r hc
  norm_num [makeMetalMat, metalPartCfg, blackPart, specColorBlend,
    colorWithBrightness, rgbGray] at hr

/-- Claim C5 amended: for every pair of cap settings, the body config's
brightness, roughness, emissive intensity and environment-map intensity
are the unweighted means of the cap values, while the body color is the
fixed "#bbbbbb" (not a blend), and the body material color is that fixed
gray scaled by the mean brightness. -/
theorem body_material_mean_fields (ms : MetalSettings) (planes : List Plane) :
    (metalPartCfg ms MetalPart.body).brightness =
      (ms.top.brightness + ms.bottom.brightness) / 2 ∧
    (metalPartCfg ms MetalPart.body).roughness =
      (ms.top.roughness + ms.bottom.roughness) / 2 ∧
    (metalPartCfg ms MetalPart.body).emissiveIntensity =
      (ms.top.emissiveIntensity + ms.bottom.emissiveIntensity) / 2 ∧
    (metalPartCfg ms MetalPart.body).envMapIntensity =
      (ms.top.envMapIntensity + ms.bottom.envMapIntensity) / 2 ∧
    (metalPartCfg ms MetalPart.body).color = rgbGray ∧
    (makeMetalMat ms planes MetalPart.body).color =
      colorWithBrightness rgbGray ((ms.top.brightness + ms.bottom.brightness) / 2) := by
  simp [metalPartCfg, makeMetalMat]

/-- Claim C6: for every pair of cap settings and every geometry, the
rendered body mesh carries the fixed policy castShadow true and
receiveShadow true, independent of the caps' shadow flags. -/
theorem body_mesh_shadow_policy (ms : MetalSettings) (e : BoundingExtent) (sy : ℚ) :
    (bodyMesh ms e sy).castShadow = true ∧ (bodyMesh ms e sy).receiveShadow = true := by
  simp [bodyMesh]

/-- Claim C7: material composition is order-independent on the averaged
fields, and the body config's shadow flags equal the fixed policy under
both argument orders. -/
theorem body_config_symmetric (A B : MetalPartSettings) :
    (metalPartCfg (MetalSettings.mk A B) MetalPart.body).brightness =
      (metalPartCfg (MetalSettings.mk B A) MetalPart.body).brightness ∧
    (metalPartCfg (MetalSettings.mk A B) MetalPart.body).roughness =
      (metalPartCfg (MetalSettings.mk B A) MetalPart.body).roughness ∧
    (metalPartCfg (MetalSettings.mk A B) MetalPart.body).emissiveIntensity =
      (metalPartCfg (MetalSettings.mk B A) MetalPart.body).emissiveIntensity ∧
    (metalPartCfg (MetalSettings.mk A B) MetalPart.body).envMapIntensity =
      (metalPartCfg (MetalSettings.mk B A) MetalPart.body).envMapIntensity ∧
    (metalPartCfg (MetalSettings.mk A B) MetalPart.body).castShadow = false ∧
    (metalPartCfg (MetalSettings.mk A B) MetalPart.body).receiveShadow = true ∧
    (metalPartCfg (MetalSettings.mk B A) MetalPart.body).castShadow = false ∧
    (metalPartCfg (MetalSettings.mk B A) MetalPart.body).receiveShadow = true := by
  simp [metalPartCfg, add_comm]

/-- Claim C8: exactly one environment source is active: the Lightformer
environment exactly when bar.enabled is true, the studio backdrop exactly
when it is false, and never both or neither. -/
theorem environment_exclusive (barRotation otherRotation : ℚ) (bar : BarSettings) :
    (rotatingEnvironment barRotation otherRotation bar).isLightformer = bar.enabled ∧
    (rotatingEnvironment barRotation otherRotation bar).isStudio = !bar.enabled ∧
    (rotatingEnvironment barRotation otherRotation bar).isLightformer ≠
      (rotatingEnvironment barRotation otherRotation bar).isStudio := by
  cases hb : bar.enabled <;>
    simp [rotatingEnvironment, hb, EnvScene.isLightformer, EnvScene.isStudio]

/-- Claim C9: the rendered group scale is the constant [2, 2, 2] for both
presets; switching presets changes only the stretch (1.0 versus
3.0 / 2.5 = 1.2) applied to the body and label, the caps and tab stay at
unit local scale, the body and label keep unit x and z scale (the
diameter is unchanged), and the per-preset scale triples of canSizeSpecs
differ from the applied group scale. -/
theorem group_scale_constant :
    groupScale = Vec3.mk 2 2 2 ∧
    stretchFor CanSize.ml355 = 1 ∧
    stretchFor CanSize.ml475 = 1.2 ∧
    (∀ size : CanSize, (canSizeSpecs size).scale ≠ groupScale) ∧
    (∀ (ms : MetalSettings) (e : BoundingExtent) (size : CanSize),
      (topCapMesh ms e (stretchFor size)).scale = Vec3.mk 1 1 1 ∧
      (bottomCapMesh ms e (stretchFor size)).scale = Vec3.mk 1 1 1 ∧
      (tabMesh e (stretchFor size)).scale = Vec3.mk 1 1 1 ∧
      (bodyMesh ms e (stretchFor size)).scale = Vec3.mk 1 (stretchFor size) 1 ∧
      (labelMesh (stretchFor size)).scale = Vec3.mk 1 (stretchFor size) 1) := by
  refine ⟨?_, ?_, ?_, ?_, ?_⟩
  · norm_num [groupScale, uniformScale]
  · norm_num [stretchFor]
  · norm_num [stretchFor]
  · intro size
    intro h
    have hx := congrArg Vec3.x h
    cases size <;> norm_num [canSizeSpecs, groupScale, uniformScale] at hx
  · intro ms e size
    refine ⟨rfl, rfl, rfl, rfl, rfl⟩

/-- Claim C10: resetToDefault restores the default exposure, environment
intensity, the four light intensities, group rotation and group strength,
but carries the three light position fields over from the previous value;
in particular resetting a record whose fill light was moved does not give
back the initial default record. -/
theorem reset_lighting_partial (prev : LightingSettings) :
    (resetLighting prev).exposure = 1.78 ∧
    (resetLighting prev).envIntensity = 1.54 ∧
    (resetLighting prev).ambientIntensity = 2.8 ∧
    (resetLighting prev).fillLightIntensity = 5.0 ∧
    (resetLighting prev).rimLightIntensity = 5.8 ∧
    (resetLighting prev).directionalIntensity = 2.6 ∧
    (resetLighting prev).otherRotation = 195 * mathPi / 180 ∧
    (resetLighting prev).otherStrength = 1.01 ∧
    (resetLighting prev).fillLightPosition = prev.fillLightPosition ∧
    (resetLighting prev).rimLightPosition = prev.rimLightPosition ∧
    (resetLighting prev).directionalPosition = prev.directionalPosition ∧
    resetLighting { initialLightingSettings with fillLightPosition := Vec3.mk 9 9 9 } ≠
      initialLightingSettings := by
  refine ⟨rfl, rfl, rfl, rfl, rfl, rfl, rfl, rfl, rfl, rfl, rfl, ?_⟩
  intro h
  have h2 := congrArg LightingSettings.fillLightPosition h
  have hx := congrArg Vec3.x h2
  norm_num [resetLighting, initialLightingSettings] at hx

end CanEditor
